import Mathlib

/-!
Verification development for the material scoring and ranking core of the
Track3d.AI repository (`data_utils.py`, `model.py`, `material_data.py`).

Embedding conventions:
* Python floats are embedded as exact rationals (`ℚ`).
* A pandas DataFrame of materials is embedded as a `List Material` in row order.
* A Python dict read with `d.get(key, default)` is embedded as a record field
  with that default, or as an association-list lookup with `Option.getD`.
* `df.sort_values(by, ascending=False)` is embedded following pandas
  `nargsort`: the column is reversed, arg-sorted ascending, and the resulting
  indexer is reversed again.  the numpy default `quicksort` (introsort) runs its
  plain insertion sort on any array shorter than 16 elements, and the catalog
  in `model.py` has exactly 15 rows, so the ascending arg-sort is embedded as
  a stable insertion sort.
-/

namespace Track3d

/-- A material record, one row of the DataFrame built by
`material_data.generate_material_database`.  `weather_resistance` is the
per-row dict embedded as an association list. -/
structure Material where
  id : ℤ
  name : String
  type : String
  applications : List String
  strength_mpa : ℚ
  durability_years : ℚ
  thermal_conductivity : ℚ
  fire_resistance_hours : ℚ
  water_resistance : ℚ
  eco_friendly_score : ℚ
  cost_per_unit : ℚ
  availability : ℚ
  maintenance_requirement : ℚ
  weather_resistance : List (String × ℚ)
  installation_complexity : ℚ
  supplier_id : String

/-- Placeholder row used only as the default of `List.getD`. -/
def defaultMaterial : Material :=
  ⟨0, "", "", [], 0, 0, 0, 0, 0, 0, 0, 0, 0, [], 0, ""⟩

instance : Inhabited Material := ⟨defaultMaterial⟩

/-- A project-specification dict (`project_specs` in `data_utils.py`).  Every
field default is the value `project_specs.get(key, default)` yields when the
key is absent, so an omitted field is exactly an absent dict key. -/
structure ProjectSpecs where
  applications : List String := []
  material_types : List String := []
  min_strength_mpa : ℚ := 0
  min_durability_years : ℚ := 0
  fire_resistance_requirement : ℚ := 0
  water_resistance_requirement : ℚ := 0
  thermal_requirement : Option String := none
  eco_friendly_requirement : ℚ := 0
  budget_constraint : Option ℚ := none
  environmental_conditions : List (String × ℚ) := []
  installation_time_constraint : Option String := none

/-- A scored row: the material plus its computed `total_score` column. -/
structure ScoredMaterial where
  material : Material
  total_score : ℚ

/-- The keys of the weight dict of `calculate_material_scores`
(data_utils.py lines 121-135), one field per dict entry. -/
structure WeightTable where
  application_match : ℚ
  strength : ℚ
  durability : ℚ
  fire_resistance : ℚ
  water_resistance : ℚ
  thermal : ℚ
  eco_friendly : ℚ
  cost : ℚ
  availability : ℚ
  maintenance : ℚ
  weather : ℚ
  installation : ℚ

/-- The weight dict, verbatim: twelve entries. -/
def weights : WeightTable := ⟨5, 3, 3, 2, 2, 2, 2, 4, 3, 2, 3, 2⟩

/-- The normalizer `total_weight = sum(w for k, w in weights.items())` (line 297): the sum
of all twelve dict values. -/
def total_weight : ℚ :=
  weights.application_match + weights.strength + weights.durability +
    weights.fire_resistance + weights.water_resistance + weights.thermal +
    weights.eco_friendly + weights.cost + weights.availability +
    weights.maintenance + weights.weather + weights.installation

/-- Application sub-score (lines 142-148):
`sum(1 for app in requested if app in x) / max(1, len(requested)) * 10`. -/
def applicationScore (specs : ProjectSpecs) (m : Material) : ℚ :=
  ((specs.applications.countP fun app => m.applications.contains app : ℕ) : ℚ)
    / ((max 1 specs.applications.length : ℕ) : ℚ) * 10

/-- Material-type sub-score (lines 159-161). -/
def typeScore (specs : ProjectSpecs) (m : Material) : ℚ :=
  if specs.material_types.contains m.type then 10 else 5

/-- The `np.where(value >= req, 10, 10 * (value / req))` pattern used by the
strength, durability, fire, water and eco sub-scores. -/
def ratioScore (value req : ℚ) : ℚ :=
  if req ≤ value then 10 else 10 * (value / req)

/-- Thermal sub-score (lines 216-228), clipped to [0, 10]. -/
def thermalScore (tr : String) (m : Material) : ℚ :=
  min (max (if tr == "low" then 10 - m.thermal_conductivity / 10
            else m.thermal_conductivity / 10) 0) 10

/-- Cost sub-score (lines 248-252):
`np.where(cost_per_unit <= budget, 10, 10 * (budget / cost_per_unit))`. -/
def costScoreFormula (budget cost : ℚ) : ℚ :=
  if cost ≤ budget then 10 else 10 * (budget / cost)

/-- The four recognised environmental-condition keys (line 264). -/
def weatherKeys : List String := ["heat", "cold", "humidity", "uv"]

/-- The environmental conditions that contribute (line 264):
`importance > 0 and condition in ["heat", "cold", "humidity", "uv"]`. -/
def activeEnv (specs : ProjectSpecs) : List (String × ℚ) :=
  specs.environmental_conditions.filter fun p =>
    decide (0 < p.2) && weatherKeys.contains p.1

/-- One weather-resistance component: `x.get(condition, 5)` (line 267). -/
def weatherLookup (m : Material) (c : String) : ℚ :=
  (m.weather_resistance.lookup c).getD 5

/-- Accumulated `weather_score` before division (lines 260-272). -/
def weatherNum (specs : ProjectSpecs) (m : Material) : ℚ :=
  ((activeEnv specs).map fun p => weatherLookup m p.1 * p.2 / 10).sum

/-- Accumulated `count` (line 272). -/
def weatherCount (specs : ProjectSpecs) : ℚ :=
  ((activeEnv specs).map fun p => p.2 / 10).sum

/-- Importance-weighted weather sub-score (line 275). -/
def weatherScore (specs : ProjectSpecs) (m : Material) : ℚ :=
  weatherNum specs m / weatherCount specs

/-- Installation sub-score (lines 283-290); the non-"low" branch is the raw
complexity, not clipped. -/
def installScore (ic : String) (m : Material) : ℚ :=
  if ic == "low" then 10 - m.installation_complexity
  else m.installation_complexity

/-- The `total_score` of one material, mirroring the sequential accumulation
of `calculate_material_scores` (data_utils.py lines 119-300) block by block:
each active criterion adds `sub_score * weight`, then the sum is divided by
`total_weight` and multiplied by 10. -/
def scoreMaterial (specs : ProjectSpecs) (m : Material) : ℚ :=
  let t : ℚ := 0
  let t := t + applicationScore specs m * weights.application_match
  let t := if specs.material_types ≠ [] then
    t + typeScore specs m * weights.strength else t
  let t := if 0 < specs.min_strength_mpa then
    t + ratioScore m.strength_mpa specs.min_strength_mpa * weights.strength else t
  let t := if 0 < specs.min_durability_years then
    t + ratioScore m.durability_years specs.min_durability_years * weights.durability else t
  let t := if 0 < specs.fire_resistance_requirement then
    t + ratioScore m.fire_resistance_hours specs.fire_resistance_requirement *
      weights.fire_resistance else t
  let t := if 0 < specs.water_resistance_requirement then
    t + ratioScore m.water_resistance specs.water_resistance_requirement *
      weights.water_resistance else t
  let t := match specs.thermal_requirement with
    | some tr => t + thermalScore tr m * weights.thermal
    | none => t
  let t := if 0 < specs.eco_friendly_requirement then
    t + ratioScore m.eco_friendly_score specs.eco_friendly_requirement *
      weights.eco_friendly else t
  let t := match specs.budget_constraint with
    | some b => t + costScoreFormula b m.cost_per_unit * weights.cost
    | none => t
  let t := if specs.environmental_conditions ≠ [] ∧ 0 < weatherCount specs then
    t + weatherScore specs m * weights.weather else t
  let t := match specs.installation_time_constraint with
    | some ic => t + installScore ic m * weights.installation
    | none => t
  t / total_weight * 10

/-- One output row of the scoring engine. -/
def scoreRow (specs : ProjectSpecs) (m : Material) : ScoredMaterial :=
  ⟨m, scoreMaterial specs m⟩

/-- Embedding of `df.sort_values(by="total_score", ascending=False)`, following pandas
`nargsort`: reverse, stable ascending arg-sort (numpy insertion sort for the
15-row catalog), reverse again. -/
def sortByScoreDesc (l : List ScoredMaterial) : List ScoredMaterial :=
  (List.insertionSort (fun a b => a.total_score ≤ b.total_score) l.reverse).reverse

/-- The scoring engine `calculate_material_scores` (data_utils.py lines 104-305): score every
row, then sort by `total_score` descending. -/
def calculate_material_scores (materials : List Material)
    (specs : ProjectSpecs) : List ScoredMaterial :=
  sortByScoreDesc (materials.map (scoreRow specs))

/-- The fixed catalog built by `material_data.generate_material_database`:
15 rows, ids 1..15, in source order. -/
def materialDatabase : List Material :=
  [⟨1, "Standard Portland Cement Concrete", "Concrete",
    ["Foundation", "Structural", "Flooring"], 25, 50, 17/10, 4, 8, 4, 110, 9, 3,
    [("heat", 9), ("cold", 7), ("humidity", 8), ("uv", 8)], 5, "SUP001"⟩,
   ⟨2, "High-Strength Concrete", "Concrete",
    ["Foundation", "Structural"], 60, 75, 16/10, 45/10, 9, 3, 180, 7, 2,
    [("heat", 9), ("cold", 8), ("humidity", 9), ("uv", 8)], 6, "SUP002"⟩,
   ⟨3, "Structural Steel (A36)", "Steel",
    ["Structural"], 400, 60, 45, 1/2, 4, 6, 2000, 8, 5,
    [("heat", 6), ("cold", 8), ("humidity", 3), ("uv", 7)], 7, "SUP003"⟩,
   ⟨4, "Stainless Steel (316)", "Steel",
    ["Structural", "Facade"], 290, 100, 16, 3/4, 9, 7, 4500, 6, 2,
    [("heat", 9), ("cold", 9), ("humidity", 9), ("uv", 9)], 8, "SUP004"⟩,
   ⟨5, "Douglas Fir Lumber", "Wood",
    ["Structural", "Flooring"], 85, 25, 12/100, 3/4, 3, 8, 600, 7, 7,
    [("heat", 5), ("cold", 7), ("humidity", 4), ("uv", 3)], 4, "SUP005"⟩,
   ⟨6, "Pressure-Treated Pine", "Wood",
    ["Structural", "Flooring", "Wall"], 70, 40, 15/100, 1/2, 7, 6, 750, 9, 5,
    [("heat", 6), ("cold", 7), ("humidity", 6), ("uv", 5)], 3, "SUP006"⟩,
   ⟨7, "Clay Brick", "Brick",
    ["Wall", "Facade"], 15, 100, 6/10, 6, 7, 7, 400, 9, 2,
    [("heat", 9), ("cold", 8), ("humidity", 7), ("uv", 9)], 6, "SUP007"⟩,
   ⟨8, "Tempered Glass", "Glass",
    ["Windows", "Doors", "Facade"], 100, 30, 1, 1/4, 10, 6, 70, 8, 4,
    [("heat", 7), ("cold", 7), ("humidity", 10), ("uv", 7)], 7, "SUP008"⟩,
   ⟨9, "Low-E Insulated Glass", "Glass",
    ["Windows", "Facade"], 90, 35, 1/2, 1/4, 10, 8, 120, 7, 3,
    [("heat", 9), ("cold", 9), ("humidity", 10), ("uv", 9)], 8, "SUP009"⟩,
   ⟨10, "Aluminum Alloy 6061", "Aluminum",
    ["Structural", "Facade", "Windows", "Doors"], 310, 40, 167, 1/10, 8, 8, 3000, 8, 3,
    [("heat", 7), ("cold", 9), ("humidity", 8), ("uv", 9)], 5, "SUP010"⟩,
   ⟨11, "Granite", "Stone",
    ["Flooring", "Facade", "Interior Finishing"], 170, 100, 28/10, 6, 8, 6, 200, 6, 3,
    [("heat", 9), ("cold", 9), ("humidity", 8), ("uv", 9)], 7, "SUP011"⟩,
   ⟨12, "Porcelain Tile", "Ceramic",
    ["Flooring", "Wall", "Interior Finishing"], 35, 50, 15/10, 5, 9, 6, 30, 9, 2,
    [("heat", 9), ("cold", 8), ("humidity", 9), ("uv", 9)], 5, "SUP012"⟩,
   ⟨13, "PVC", "Plastic",
    ["Doors", "Windows", "Interior Finishing"], 55, 35, 19/100, 1/5, 10, 3, 25, 10, 2,
    [("heat", 5), ("cold", 8), ("humidity", 10), ("uv", 4)], 3, "SUP013"⟩,
   ⟨14, "Fiber Cement Board", "Composite",
    ["Wall", "Facade", "Roofing"], 20, 50, 1/4, 2, 9, 7, 18, 8, 2,
    [("heat", 8), ("cold", 8), ("humidity", 9), ("uv", 8)], 4, "SUP014"⟩,
   ⟨15, "Composite Decking", "Composite",
    ["Flooring"], 25, 30, 22/100, 1, 9, 8, 65, 7, 2,
    [("heat", 7), ("cold", 8), ("humidity", 9), ("uv", 7)], 4, "SUP015"⟩]

/-- Row `i` of the catalog. -/
def matAt (i : ℕ) : Material := materialDatabase.getD i defaultMaterial

/-- The ids present in the catalog. -/
def catalogIds : List ℤ := materialDatabase.map (·.id)

/-- The facade `MaterialRecommender.recommend_materials` (model.py lines 132-149): score
the fixed catalog and keep the head; the source default is
`n_recommendations=5`. -/
def recommend_materials (specs : ProjectSpecs)
    (n_recommendations : ℕ := 5) : List ScoredMaterial :=
  (calculate_material_scores materialDatabase specs).take n_recommendations

/-- Features extracted from a project specification by
`data_utils.extract_project_features`: the numeric requirement entries
followed by the `env_`-prefixed environmental conditions.  (In the record
embedding every numeric key is present.) -/
def extractProjectFeatures (specs : ProjectSpecs) : List (String × ℚ) :=
  [("min_strength_mpa", specs.min_strength_mpa),
   ("min_durability_years", specs.min_durability_years),
   ("fire_resistance_requirement", specs.fire_resistance_requirement),
   ("water_resistance_requirement", specs.water_resistance_requirement),
   ("eco_friendly_requirement", specs.eco_friendly_requirement)]
  ++ (match specs.budget_constraint with
      | some b => [("budget_constraint", b)]
      | none => [])
  ++ (specs.environmental_conditions.map fun p => ("env_" ++ p.1, p.2))

/-- The fitted `RandomForestRegressor` of model.py line 65, an external
library object: embedded by the data it was fitted on. -/
structure RFModel where
  features : List (List (String × ℚ))
  targets : List ℚ

/-- The mutable part of `MaterialRecommender` touched by
`train_regression_model`: `self.rf_model` and `self.trained` (the catalog,
scaler and knn structure are process constants). -/
structure RecommenderState where
  rf_model : Option RFModel := none
  trained : Bool := false

/-- The trainer `MaterialRecommender.train_regression_model` (model.py lines 38-69) as an
explicit state transformer returning the Python result and the state after
the call. -/
def train_regression_model (st : RecommenderState)
    (project_specs_list : List ProjectSpecs) (ratings_list : List ℚ) :
    Bool × RecommenderState :=
  if project_specs_list.length < 5 ∨ ratings_list.length < 5 then
    (false, st)
  else
    (true, { rf_model := some ⟨project_specs_list.map extractProjectFeatures,
                               ratings_list⟩,
             trained := true })

/-! ## Spec-side (claim-side) definitions -/

/-- The weighted sum of active sub-scores as the table in section 4.1 of the spec states it:
each active sub-score times its criterion weight, inactive criteria
contributing nothing. -/
def specWeightedSum (specs : ProjectSpecs) (m : Material) : ℚ :=
  applicationScore specs m * 5
  + (if specs.material_types ≠ [] then typeScore specs m * 3 else 0)
  + (if 0 < specs.min_strength_mpa then
      ratioScore m.strength_mpa specs.min_strength_mpa * 3 else 0)
  + (if 0 < specs.min_durability_years then
      ratioScore m.durability_years specs.min_durability_years * 3 else 0)
  + (if 0 < specs.fire_resistance_requirement then
      ratioScore m.fire_resistance_hours specs.fire_resistance_requirement * 2 else 0)
  + (if 0 < specs.water_resistance_requirement then
      ratioScore m.water_resistance specs.water_resistance_requirement * 2 else 0)
  + (match specs.thermal_requirement with
     | some tr => thermalScore tr m * 2
     | none => 0)
  + (if 0 < specs.eco_friendly_requirement then
      ratioScore m.eco_friendly_score specs.eco_friendly_requirement * 2 else 0)
  + (match specs.budget_constraint with
     | some b => costScoreFormula b m.cost_per_unit * 4
     | none => 0)
  + (if specs.environmental_conditions ≠ [] ∧ 0 < weatherCount specs then
      weatherScore specs m * 3 else 0)
  + (match specs.installation_time_constraint with
     | some ic => installScore ic m * 2
     | none => 0)

/-- The normalization exactly as the claim C1 words it: divide the weighted
sum by 29 ("the sum of all eleven weights") and multiply by 10. -/
def claimTotalScore29 (specs : ProjectSpecs) (m : Material) : ℚ :=
  specWeightedSum specs m / 29 * 10

/-! ## Shared lemmas about the scoring pipeline -/

lemma total_weight_eq : total_weight = 33 := by
  norm_num [total_weight, weights]

/-- Conditional accumulation `if c then t + x else t` is the unconditional
sum of `t` and a conditional contribution. -/
lemma ite_accum (c : Prop) [Decidable c] (t x : ℚ) :
    (if c then t + x else t) = t + (if c then x else 0) := by
  split_ifs <;> simp

/-- Closed form of the sequential accumulation: the scoring pipeline computes
the spec-side weighted sum, divided by 33 and multiplied by 10. -/
lemma scoreMaterial_closed_form (specs : ProjectSpecs) (m : Material) :
    scoreMaterial specs m = specWeightedSum specs m / 33 * 10 := by
  unfold scoreMaterial specWeightedSum
  rw [total_weight_eq]
  cases htr : specs.thermal_requirement <;>
    cases hbu : specs.budget_constraint <;>
      cases hin : specs.installation_time_constraint <;>
        simp only [ite_accum, weights] <;> ring

/-- A spec dict whose only key is `applications`. -/
def specOnlyApplication : ProjectSpecs := { applications := ["Foundation"] }

/-- A spec that activates every criterion, tuned to material 1 so that every
ratio sub-score evaluates to exactly 10. -/
def specFullActive : ProjectSpecs :=
  { applications := ["Foundation"], material_types := ["Concrete"],
    min_strength_mpa := 25, min_durability_years := 50,
    fire_resistance_requirement := 4, water_resistance_requirement := 8,
    thermal_requirement := some "low", eco_friendly_requirement := 4,
    budget_constraint := some 110,
    environmental_conditions := [("heat", 10)],
    installation_time_constraint := some "low" }

/-! ## C1: normalization constant -/

/-- C1 counterexample: with only `applications` active, material 1 scores
`10 * 5 / 33 * 10 = 500/33`, not the `500/29` that the divisor 29 of the claim
predicts; the claim is false on this input. -/
theorem C1_counterexample :
    scoreMaterial specOnlyApplication (matAt 0) ≠
      claimTotalScore29 specOnlyApplication (matAt 0) := by
  have h1 : scoreMaterial specOnlyApplication (matAt 0) = 500 / 33 := by
    norm_num [scoreMaterial, specOnlyApplication, applicationScore, typeScore,
      ratioScore, thermalScore, costScoreFormula, weatherScore, weatherNum,
      weatherCount, activeEnv, weatherKeys, weatherLookup, installScore,
      weights, total_weight, matAt, materialDatabase, defaultMaterial]
  have h2 : claimTotalScore29 specOnlyApplication (matAt 0) = 500 / 29 := by
    norm_num [claimTotalScore29, specWeightedSum, specOnlyApplication,
      applicationScore, typeScore, ratioScore, thermalScore, costScoreFormula,
      weatherScore, weatherNum, weatherCount, activeEnv, weatherKeys,
      weatherLookup, installScore, matAt, materialDatabase, defaultMaterial]
  rw [h1, h2]
  norm_num

/-- C1 (amended): each active sub-score is multiplied by its criterion weight
and summed, and the sum is normalized by dividing by the constant sum of all
twelve table weights — which is 33, the table also holding availability=3 and
maintenance=2 that no sub-score uses — and multiplying by 10. -/
theorem C1_normalization (specs : ProjectSpecs) (m : Material) :
    scoreMaterial specs m = specWeightedSum specs m / total_weight * 10 ∧
      total_weight = 33 := by
  refine ⟨?_, total_weight_eq⟩
  rw [total_weight_eq]
  exact scoreMaterial_closed_form specs m

/-! ## C2: range of the total score -/

/-- C2 counterexample: a specification with every criterion active and every
ratio sub-score equal to 10 under which the total score of material 1 is
`14833/165 ≈ 89.9`, far outside [0, 10]; the claimed bound is false. -/
theorem C2_counterexample :
    specFullActive.material_types ≠ [] ∧
    0 < specFullActive.min_strength_mpa ∧
    0 < specFullActive.min_durability_years ∧
    0 < specFullActive.fire_resistance_requirement ∧
    0 < specFullActive.water_resistance_requirement ∧
    specFullActive.thermal_requirement.isSome = true ∧
    0 < specFullActive.eco_friendly_requirement ∧
    specFullActive.budget_constraint.isSome = true ∧
    specFullActive.environmental_conditions ≠ [] ∧
    0 < weatherCount specFullActive ∧
    specFullActive.installation_time_constraint.isSome = true ∧
    ratioScore (matAt 0).strength_mpa specFullActive.min_strength_mpa ≤ 10 ∧
    ratioScore (matAt 0).durability_years specFullActive.min_durability_years ≤ 10 ∧
    ratioScore (matAt 0).fire_resistance_hours specFullActive.fire_resistance_requirement ≤ 10 ∧
    ratioScore (matAt 0).water_resistance specFullActive.water_resistance_requirement ≤ 10 ∧
    ratioScore (matAt 0).eco_friendly_score specFullActive.eco_friendly_requirement ≤ 10 ∧
    costScoreFormula 110 (matAt 0).cost_per_unit ≤ 10 ∧
    10 < scoreMaterial specFullActive (matAt 0) := by
  norm_num [scoreMaterial, specFullActive, applicationScore, typeScore,
    ratioScore, thermalScore, costScoreFormula, weatherScore, weatherNum,
    weatherCount, activeEnv, weatherKeys, weatherLookup, installScore,
    weights, total_weight, matAt, materialDatabase, defaultMaterial]

/-- C2 (amended): when every criterion is active and every sub-score lies in
[0, 10], the total score lands in [0, 3100/33] (≈ 93.9), not in [0, 10]. -/
theorem C2_total_score_bounds (specs : ProjectSpecs) (m : Material)
    (happ : 0 ≤ applicationScore specs m ∧ applicationScore specs m ≤ 10)
    (hmt : specs.material_types ≠ [])
    (hty : 0 ≤ typeScore specs m ∧ typeScore specs m ≤ 10)
    (hs : 0 < specs.min_strength_mpa)
    (hsb : 0 ≤ ratioScore m.strength_mpa specs.min_strength_mpa ∧
      ratioScore m.strength_mpa specs.min_strength_mpa ≤ 10)
    (hd : 0 < specs.min_durability_years)
    (hdb : 0 ≤ ratioScore m.durability_years specs.min_durability_years ∧
      ratioScore m.durability_years specs.min_durability_years ≤ 10)
    (hf : 0 < specs.fire_resistance_requirement)
    (hfb : 0 ≤ ratioScore m.fire_resistance_hours specs.fire_resistance_requirement ∧
      ratioScore m.fire_resistance_hours specs.fire_resistance_requirement ≤ 10)
    (hw : 0 < specs.water_resistance_requirement)
    (hwb : 0 ≤ ratioScore m.water_resistance specs.water_resistance_requirement ∧
      ratioScore m.water_resistance specs.water_resistance_requirement ≤ 10)
    (hth : specs.thermal_requirement.isSome = true)
    (hthb : ∀ tr, specs.thermal_requirement = some tr →
      0 ≤ thermalScore tr m ∧ thermalScore tr m ≤ 10)
    (he : 0 < specs.eco_friendly_requirement)
    (heb : 0 ≤ ratioScore m.eco_friendly_score specs.eco_friendly_requirement ∧
      ratioScore m.eco_friendly_score specs.eco_friendly_requirement ≤ 10)
    (hb : specs.budget_constraint.isSome = true)
    (hbb : ∀ b, specs.budget_constraint = some b →
      0 ≤ costScoreFormula b m.cost_per_unit ∧ costScoreFormula b m.cost_per_unit ≤ 10)
    (henv : specs.environmental_conditions ≠ [])
    (hwc : 0 < weatherCount specs)
    (hws : 0 ≤ weatherScore specs m ∧ weatherScore specs m ≤ 10)
    (hic : specs.installation_time_constraint.isSome = true)
    (hicb : ∀ ic, specs.installation_time_constraint = some ic →
      0 ≤ installScore ic m ∧ installScore ic m ≤ 10) :
    0 ≤ scoreMaterial specs m ∧ scoreMaterial specs m ≤ 3100 / 33 := by
  obtain ⟨tr, htr⟩ := Option.isSome_iff_exists.mp hth
  obtain ⟨b, hbe⟩ := Option.isSome_iff_exists.mp hb
  obtain ⟨ic, hice⟩ := Option.isSome_iff_exists.mp hic
  obtain ⟨h1, h2⟩ := hthb tr htr
  obtain ⟨h3, h4⟩ := hbb b hbe
  obtain ⟨h5, h6⟩ := hicb ic hice
  rw [scoreMaterial_closed_form]
  unfold specWeightedSum
  rw [htr, hbe, hice, if_pos hmt, if_pos hs, if_pos hd, if_pos hf, if_pos hw,
    if_pos he, if_pos (And.intro henv hwc)]
  constructor
  · have := happ.1
    linarith [hty.1, hsb.1, hdb.1, hfb.1, hwb.1, heb.1, hws.1]
  · have := happ.2
    linarith [hty.2, hsb.2, hdb.2, hfb.2, hwb.2, heb.2, hws.2]

/-- C2 witness: the amended bound instantiated at the all-active
specification and material 1. -/
theorem C2_total_score_bounds_witness :
    specFullActive.material_types ≠ [] ∧
      (0 ≤ scoreMaterial specFullActive (matAt 0) ∧
        scoreMaterial specFullActive (matAt 0) ≤ 3100 / 33) := by
  constructor
  · norm_num [specFullActive]
  · exact C2_total_score_bounds specFullActive (matAt 0)
      (by norm_num [applicationScore, specFullActive, matAt, materialDatabase,
        defaultMaterial])
      (by norm_num [specFullActive])
      (by norm_num [typeScore, specFullActive, matAt, materialDatabase,
        defaultMaterial])
      (by norm_num [specFullActive])
      (by norm_num [ratioScore, specFullActive, matAt, materialDatabase,
        defaultMaterial])
      (by norm_num [specFullActive])
      (by norm_num [ratioScore, specFullActive, matAt, materialDatabase,
        defaultMaterial])
      (by norm_num [specFullActive])
      (by norm_num [ratioScore, specFullActive, matAt, materialDatabase,
        defaultMaterial])
      (by norm_num [specFullActive])
      (by norm_num [ratioScore, specFullActive, matAt, materialDatabase,
        defaultMaterial])
      (by norm_num [specFullActive])
      (by intro tr htr
          simp only [specFullActive] at htr
          cases htr
          norm_num [thermalScore, matAt, materialDatabase, defaultMaterial])
      (by norm_num [specFullActive])
      (by norm_num [ratioScore, specFullActive, matAt, materialDatabase,
        defaultMaterial])
      (by norm_num [specFullActive])
      (by intro b hbe
          simp only [specFullActive] at hbe
          cases hbe
          norm_num [costScoreFormula, matAt, materialDatabase, defaultMaterial])
      (by norm_num [specFullActive])
      (by norm_num [weatherCount, activeEnv, specFullActive, weatherKeys])
      (by norm_num [weatherScore, weatherNum, weatherCount, activeEnv,
        specFullActive, weatherKeys, weatherLookup, matAt, materialDatabase,
        defaultMaterial])
      (by norm_num [specFullActive])
      (by intro ic hice
          simp only [specFullActive] at hice
          cases hice
          norm_num [installScore, matAt, materialDatabase, defaultMaterial])

/-! ## C6: the cost formula is capped at 10 -/

/-- C6 counterexample: there is no budget and positive cost very small
relative to it (cost at most a thousandth of the budget) for which the cost
formula exceeds 10 — such a cost is below the budget, where the formula is
exactly 10. -/
theorem C6_counterexample :
    ¬ ∃ budget cost : ℚ, 0 < cost ∧ cost * 1000 ≤ budget ∧
      10 < costScoreFormula budget cost := by
  rintro ⟨b, c, hc, hb, hgt⟩
  have hcb : c ≤ b := by nlinarith
  rw [costScoreFormula, if_pos hcb] at hgt
  exact absurd hgt (by norm_num)

/-- C6 (amended): for positive cost the cost sub-score never exceeds 10; it
is exactly 10 whenever the cost is within budget. -/
theorem C6_cost_score_capped (budget cost : ℚ) (hc : 0 < cost) :
    costScoreFormula budget cost ≤ 10 ∧
      (cost ≤ budget → costScoreFormula budget cost = 10) := by
  unfold costScoreFormula
  split_ifs with h
  · exact ⟨le_refl 10, fun _ => rfl⟩
  · refine ⟨?_, fun hcb => absurd hcb h⟩
    have hlt : budget / cost < 1 := (div_lt_one hc).mpr (lt_of_not_le h)
    linarith

/-- C6 witness: the cap instantiated at budget 100 and cost 5. -/
theorem C6_cost_score_capped_witness :
    0 < (5 : ℚ) ∧ (costScoreFormula 100 5 ≤ 10 ∧
      ((5 : ℚ) ≤ 100 → costScoreFormula 100 5 = 10)) :=
  ⟨by norm_num, C6_cost_score_capped 100 5 (by norm_num)⟩

/-! ## C8: training gate on insufficient history -/

/-- The recommender state right after `__init__`. -/
def initialRecommenderState : RecommenderState := {}

/-- C8: training with fewer than 5 project specifications or fewer than 5
ratings returns `False` without raising and leaves the recommender state
(fitted model and trained flag) unchanged. -/
theorem C8_insufficient_history (st : RecommenderState)
    (project_specs_list : List ProjectSpecs) (ratings_list : List ℚ)
    (h : project_specs_list.length < 5 ∨ ratings_list.length < 5) :
    train_regression_model st project_specs_list ratings_list = (false, st) := by
  unfold train_regression_model
  rw [if_pos h]

/-- C8 witness: training on an empty history fails and is a no-op. -/
theorem C8_insufficient_history_witness :
    ([] : List ProjectSpecs).length < 5 ∧
      train_regression_model initialRecommenderState [] [] =
        (false, initialRecommenderState) :=
  ⟨by norm_num,
   C8_insufficient_history initialRecommenderState [] [] (Or.inl (by norm_num))⟩

/-! ## C9: purity of the scoring function -/

/-- C9: scoring never mutates the catalog — the output rows carry exactly the
input Material records (as a permutation, reordered by score) — and scoring
the same catalog and specification twice yields identical ordered output. -/
theorem C9_score_pure (materials : List Material) (specs : ProjectSpecs) :
    List.Perm
        ((calculate_material_scores materials specs).map ScoredMaterial.material)
        materials ∧
      calculate_material_scores materials specs =
        calculate_material_scores materials specs := by
  refine ⟨?_, rfl⟩
  have hperm : List.Perm (sortByScoreDesc (materials.map (scoreRow specs)))
      (materials.map (scoreRow specs)) := by
    unfold sortByScoreDesc
    exact ((List.reverse_perm _).trans
      (List.perm_insertionSort _ _)).trans (List.reverse_perm _)
  have hmap := hperm.map ScoredMaterial.material
  have hid : (materials.map (scoreRow specs)).map ScoredMaterial.material =
      materials := by
    have hcomp : ScoredMaterial.material ∘ scoreRow specs = id := rfl
    rw [List.map_map, hcomp, List.map_id]
  rw [hid] at hmap
  exact hmap

/-! ## C10: missing weather components default to 5 -/

/-- Appending an explicit entry `(c, 5)` for a key `c` that is absent from an
association list changes no defaulted-to-5 lookup. -/
lemma lookup_append_default (l : List (String × ℚ)) (c c2 : String)
    (hc : l.lookup c = none) :
    ((l ++ [(c, 5)]).lookup c2).getD 5 = (l.lookup c2).getD 5 := by
  induction l with
  | nil =>
    simp only [List.nil_append, List.lookup]
    cases hcc : c2 == c <;> rfl
  | cons hd tl ih =>
    obtain ⟨k, v⟩ := hd
    rw [List.cons_append]
    simp only [List.lookup] at hc ⊢
    revert hc
    cases hkc : c == k with
    | true =>
      intro hc
      simp at hc
    | false =>
      intro hc
      cases hkc2 : c2 == k with
      | true => rfl
      | false => exact ih hc

/-- C10: when the `weather_resistance` dict of a material is missing a component
key, the scoring engine behaves exactly as if that component were present
with value 5 — writing the explicit entry `(c, 5)` into the dict leaves the
total score of the material unchanged, for every specification. -/
theorem C10_missing_weather_component_defaults (specs : ProjectSpecs)
    (m : Material) (c : String)
    (hc : m.weather_resistance.lookup c = none) :
    scoreMaterial specs
        { m with weather_resistance := m.weather_resistance ++ [(c, 5)] } =
      scoreMaterial specs m := by
  have hkey : ∀ c2 : String,
      ((m.weather_resistance ++ [(c, 5)]).lookup c2).getD 5 =
        (m.weather_resistance.lookup c2).getD 5 :=
    fun c2 => lookup_append_default _ c c2 hc
  unfold scoreMaterial applicationScore typeScore thermalScore installScore
    weatherScore weatherNum weatherLookup
  dsimp only
  simp only [hkey]

/-- Material 1 with its `cold`, `humidity` and `uv` weather components
removed. -/
def matMissingUv : Material :=
  { matAt 0 with weather_resistance := [("heat", 9)] }

/-- C10 witness: the default-5 substitution at a material that is missing the
`uv` component, under the all-active specification. -/
theorem C10_missing_weather_component_defaults_witness :
    matMissingUv.weather_resistance.lookup "uv" = none ∧
      scoreMaterial specFullActive
          { matMissingUv with weather_resistance :=
              matMissingUv.weather_resistance ++ [("uv", 5)] } =
        scoreMaterial specFullActive matMissingUv :=
  ⟨by simp [matMissingUv, matAt, materialDatabase, List.lookup],
   C10_missing_weather_component_defaults specFullActive matMissingUv "uv"
     (by simp [matMissingUv, matAt, materialDatabase, List.lookup])⟩

/-! ## C5: recommend truncates the scored ranking -/

lemma length_calculate_material_scores (materials : List Material)
    (specs : ProjectSpecs) :
    (calculate_material_scores materials specs).length = materials.length := by
  simp [calculate_material_scores, sortByScoreDesc,
    List.length_insertionSort]

lemma materialDatabase_length : materialDatabase.length = 15 := rfl

/-- C5 counterexample: the default call returns 5 rows, not the first 10 the
claimed default of 10 would give. -/
theorem C5_counterexample :
    recommend_materials specOnlyApplication ≠
      (calculate_material_scores materialDatabase specOnlyApplication).take 10 := by
  intro h
  have hcal : (calculate_material_scores materialDatabase
      specOnlyApplication).length = 15 := by
    rw [length_calculate_material_scores, materialDatabase_length]
  have h5 : (recommend_materials specOnlyApplication).length = 5 := by
    rw [recommend_materials]
    rw [List.length_take_of_le (by rw [hcal]; norm_num)]
  have h10 : ((calculate_material_scores materialDatabase
      specOnlyApplication).take 10).length = 10 := by
    rw [List.length_take_of_le (by rw [hcal]; norm_num)]
  rw [h, h10] at h5
  norm_num at h5

/-- C5 (amended): `recommend(spec, n)` returns exactly the first `n` rows of
the scored, descending-sorted catalog, with `n` defaulting to 5 (not 10), and
any `n` at least the catalog size returns the full scored catalog. -/
theorem C5_recommend_truncates (specs : ProjectSpecs) (n : ℕ) :
    recommend_materials specs n =
        (calculate_material_scores materialDatabase specs).take n ∧
      recommend_materials specs =
        (calculate_material_scores materialDatabase specs).take 5 ∧
      (15 ≤ n → recommend_materials specs n =
        calculate_material_scores materialDatabase specs) := by
  refine ⟨rfl, rfl, fun hn => ?_⟩
  unfold recommend_materials
  apply List.take_of_length_le
  rw [length_calculate_material_scores, materialDatabase_length]
  exact hn

/-- C5 witness: asking for 20 of 15 materials yields the whole scored
catalog. -/
theorem C5_recommend_truncates_witness :
    15 ≤ 20 ∧ recommend_materials specOnlyApplication 20 =
      calculate_material_scores materialDatabase specOnlyApplication :=
  ⟨by norm_num,
   (C5_recommend_truncates specOnlyApplication 20).2.2 (by norm_num)⟩

/-! ## C3: descending order and tie stability -/

/-- Filtering by a predicate that only holds on key-tied elements commutes
with ordered insertion: the inserted element lands in front of the kept
ones. -/
lemma filter_orderedInsert {α : Type} (key : α → ℚ) (p : α → Bool)
    (hp : ∀ a b, p a = true → p b = true → key a ≤ key b) (a : α)
    (l : List α) :
    (List.orderedInsert (fun x y => key x ≤ key y) a l).filter p =
      if p a = true then a :: l.filter p else l.filter p := by
  induction l with
  | nil => cases hpa : p a <;> simp [List.orderedInsert, List.filter, hpa]
  | cons b t ih =>
    by_cases hab : key a ≤ key b
    · rw [List.orderedInsert, if_pos hab]
      cases hpa : p a <;> simp [List.filter_cons, hpa]
    · rw [List.orderedInsert, if_neg hab]
      cases hpb : p b with
      | false => cases hpa : p a <;> simp [List.filter_cons, hpb, hpa, ih]
      | true =>
        have hpa : p a = false := by
          cases hpa : p a
          · rfl
          · exact absurd (hp a b hpa hpb) hab
        simp [List.filter_cons, hpb, hpa, ih]

/-- Insertion sort is stable: it preserves the relative order (and hence the
filtered sublist) of elements sharing a key. -/
lemma filter_insertionSort {α : Type} (key : α → ℚ) (p : α → Bool)
    (hp : ∀ a b, p a = true → p b = true → key a ≤ key b) (l : List α) :
    (List.insertionSort (fun x y => key x ≤ key y) l).filter p = l.filter p := by
  induction l with
  | nil => rfl
  | cons a t ih =>
    rw [List.insertionSort, filter_orderedInsert key p hp a _, ih]
    cases hpa : p a <;> simp [List.filter_cons, hpa]

/-- C3: the output of the scoring engine is sorted by `total_score` descending,
and for every score value the rows carrying it appear in their original
catalog order (the sort is stable): filtering the output to any one score
value gives exactly the same rows, in the same order, as filtering the
unsorted scored catalog. -/
theorem C3_sorted_descending_stable (specs : ProjectSpecs) :
    List.Sorted (fun a b : ScoredMaterial => b.total_score ≤ a.total_score)
        (calculate_material_scores materialDatabase specs) ∧
      ∀ s : ℚ,
        (calculate_material_scores materialDatabase specs).filter
            (fun a => decide (a.total_score = s)) =
          (materialDatabase.map (scoreRow specs)).filter
            (fun a => decide (a.total_score = s)) := by
  constructor
  · haveI hT : IsTotal ScoredMaterial
        (fun a b => a.total_score ≤ b.total_score) :=
      ⟨fun a b => le_total _ _⟩
    haveI hTr : IsTrans ScoredMaterial
        (fun a b => a.total_score ≤ b.total_score) :=
      ⟨fun _ _ _ hab hbc => le_trans hab hbc⟩
    have hs := List.sorted_insertionSort
      (fun a b : ScoredMaterial => a.total_score ≤ b.total_score)
      ((materialDatabase.map (scoreRow specs)).reverse)
    unfold calculate_material_scores sortByScoreDesc
    unfold List.Sorted at hs ⊢
    rw [List.pairwise_reverse]
    exact hs
  · intro s
    have hp : ∀ a b : ScoredMaterial, decide (a.total_score = s) = true →
        decide (b.total_score = s) = true →
        a.total_score ≤ b.total_score := by
      intro a b ha hb
      rw [decide_eq_true_eq] at ha hb
      rw [ha, hb]
    unfold calculate_material_scores sortByScoreDesc
    rw [List.filter_reverse,
      filter_insertionSort ScoredMaterial.total_score _ hp,
      List.filter_reverse, List.reverse_reverse]

/-! ## Similarity index (`preprocess_material_data` + `MaterialRecommender`) -/

/-- The material types observed in the catalog (all ten), the one-hot columns
`pd.get_dummies` produces for `type`.  Column order does not affect Euclidean
distances. -/
def observedTypes : List String :=
  ["Concrete", "Steel", "Wood", "Brick", "Glass", "Aluminum",
   "Stone", "Ceramic", "Plastic", "Composite"]

/-- The application tags observed across the catalog (nine of the ten:
`Insulation` never occurs), the multi-hot columns for `applications`.  The
Python `set` iteration order is unspecified; column order does not affect
Euclidean distances. -/
def observedApplications : List String :=
  ["Foundation", "Structural", "Flooring", "Facade", "Wall",
   "Windows", "Doors", "Interior Finishing", "Roofing"]

/-- The feature columns of `preprocess_material_data`: the ten numeric
properties of `get_material_properties`, the four weather components (read
with default 0 there), the type one-hots and the application multi-hots. -/
def featureCols : List (Material → ℚ) :=
  [fun m => m.strength_mpa, fun m => m.durability_years,
   fun m => m.thermal_conductivity, fun m => m.fire_resistance_hours,
   fun m => m.water_resistance, fun m => m.eco_friendly_score,
   fun m => m.cost_per_unit, fun m => m.availability,
   fun m => m.maintenance_requirement, fun m => m.installation_complexity]
  ++ (weatherKeys.map fun w => fun m => (m.weather_resistance.lookup w).getD 0)
  ++ (observedTypes.map fun ty => fun m => if m.type == ty then (1 : ℚ) else 0)
  ++ (observedApplications.map fun app =>
        fun m => if m.applications.contains app then (1 : ℚ) else 0)

/-- Column mean over the catalog (`StandardScaler.fit`). -/
def colMean (c : Material → ℚ) : ℚ := (materialDatabase.map c).sum / 15

/-- Column population variance (`StandardScaler` uses ddof = 0). -/
def colVar (c : Material → ℚ) : ℚ :=
  ((materialDatabase.map fun m => (c m - colMean c) ^ 2).sum) / 15

/-- The squared per-column scale: the variance, or 1 for a constant column
(sklearn maps a zero scale to 1 before dividing). -/
def colDenom (c : Material → ℚ) : ℚ := if colVar c = 0 then 1 else colVar c

/-- Squared Euclidean distance between catalog rows `i` and `j` in the
standardized feature space: `(z_i - z_j)^2 = (x_i - x_j)^2 / variance`
summed over the columns. -/
def sqDist (i j : ℕ) : ℚ :=
  (featureCols.map fun c => (c (matAt i) - c (matAt j)) ^ 2 / colDenom c).sum

/-- The order in which `kneighbors` reports the 15 fitted rows for a query at
row `idx`: ascending distance (equivalently ascending squared distance). -/
def neighborOrder (idx : ℕ) : List ℕ :=
  List.insertionSort (fun a b => sqDist idx a ≤ sqDist idx b) (List.range 15)

/-- The failure kinds of the similarity lookup: the pandas `IndexError` from
an empty id match, and the sklearn `ValueError` on an out-of-range
`n_neighbors`. -/
inductive SimFailure where
  | notFound
  | invalidArgument
deriving DecidableEq

/-- The similarity lookup `MaterialRecommender.get_similar_materials` (model.py lines 71-100): find
the row of `material_id` (`index[0]` raises when no row matches); call
`kneighbors` with `n_neighbors + 1` (sklearn raises unless
`0 < n_neighbors + 1 ≤ 15`, the number of fitted samples); drop the first
neighbor (the material itself) and return the ids of the rest.  The source
default is `n_neighbors=3`. -/
def get_similar_materials (material_id : ℤ) (n_neighbors : ℤ := 3) :
    Except SimFailure (List ℤ) :=
  if material_id ∈ catalogIds then
    if n_neighbors + 1 ≤ 0 then .error .invalidArgument
    else if 15 < n_neighbors + 1 then .error .invalidArgument
    else .ok ((((neighborOrder
        (materialDatabase.findIdx fun m => m.id == material_id)).take
          (n_neighbors + 1).toNat).drop 1).map fun i => (matAt i).id)
  else .error .notFound

/-! ## Distance facts -/

lemma colVar_nonneg (c : Material → ℚ) : 0 ≤ colVar c := by
  unfold colVar
  apply div_nonneg _ (by norm_num)
  apply List.sum_nonneg
  intro x hx
  simp only [List.mem_map] at hx
  obtain ⟨m, _, rfl⟩ := hx
  exact sq_nonneg _

lemma colDenom_pos (c : Material → ℚ) : 0 < colDenom c := by
  unfold colDenom
  split_ifs with h
  · norm_num
  · exact lt_of_le_of_ne (colVar_nonneg c) (Ne.symm h)

lemma sqDist_self (i : ℕ) : sqDist i i = 0 := by
  unfold sqDist
  rw [show (featureCols.map fun c => (c (matAt i) - c (matAt i)) ^ 2 / colDenom c)
      = featureCols.map fun _ => (0 : ℚ) from
    List.map_congr_left fun c _ => by simp]
  simp

/-- The cost column is one of the feature columns. -/
lemma costCol_mem : (fun m : Material => m.cost_per_unit) ∈ featureCols := by
  unfold featureCols
  apply List.mem_append_left
  apply List.mem_append_left
  apply List.mem_append_left
  apply List.mem_cons_of_mem
  apply List.mem_cons_of_mem
  apply List.mem_cons_of_mem
  apply List.mem_cons_of_mem
  apply List.mem_cons_of_mem
  apply List.mem_cons_of_mem
  exact List.mem_cons_self _ _

lemma costNodup : (materialDatabase.map fun m => m.cost_per_unit).Nodup := by
  norm_num [materialDatabase, List.nodup_cons]

lemma idNodup : (materialDatabase.map fun m => m.id).Nodup := by decide

/-- Two catalog positions carrying the same value of an injective (duplicate
free) column are the same position. -/
lemma map_col_inj {β : Type} (f : Material → β)
    (hnd : (materialDatabase.map f).Nodup) (i j : ℕ) (hi : i < 15)
    (hj : j < 15) (h : f (matAt i) = f (matAt j)) : i = j := by
  have hlen : (materialDatabase.map f).length = 15 := by
    rw [List.length_map, materialDatabase_length]
  have hi2 : i < (materialDatabase.map f).length := by omega
  have hj2 : j < (materialDatabase.map f).length := by omega
  have hgm : ∀ (n : ℕ) (hn : n < (materialDatabase.map f).length),
      (materialDatabase.map f).get ⟨n, hn⟩ = f (matAt n) := by
    intro n hn
    have hn15 : n < materialDatabase.length := by
      rw [materialDatabase_length]
      omega
    rw [List.get_eq_getElem, List.getElem_map]
    congr 1
    rw [matAt]
    exact (List.getD_eq_getElem materialDatabase defaultMaterial hn15).symm
  have heq : (materialDatabase.map f).get ⟨i, hi2⟩ =
      (materialDatabase.map f).get ⟨j, hj2⟩ := by
    rw [hgm i hi2, hgm j hj2, h]
  have := hnd.get_inj_iff.mp heq
  simpa using this

/-- Distinct catalog rows sit at strictly positive squared distance: they
differ in the (duplicate-free) cost column, whose standardized contribution
is positive. -/
lemma sqDist_pos (i j : ℕ) (hi : i < 15) (hj : j < 15) (hij : i ≠ j) :
    0 < sqDist i j := by
  have hterms : ∀ x ∈ featureCols.map
      fun c => (c (matAt i) - c (matAt j)) ^ 2 / colDenom c, (0 : ℚ) ≤ x := by
    intro x hx
    simp only [List.mem_map] at hx
    obtain ⟨c, _, rfl⟩ := hx
    exact div_nonneg (sq_nonneg _) (le_of_lt (colDenom_pos c))
  have hcost : ((matAt i).cost_per_unit - (matAt j).cost_per_unit) ^ 2 /
      colDenom (fun m : Material => m.cost_per_unit) ≤ sqDist i j := by
    unfold sqDist
    exact List.single_le_sum hterms _
      (List.mem_map_of_mem _ costCol_mem)
  have hne : (matAt i).cost_per_unit - (matAt j).cost_per_unit ≠ 0 :=
    sub_ne_zero.mpr fun h =>
      hij (map_col_inj (fun m => m.cost_per_unit) costNodup i j hi hj h)
  have hpos : 0 < ((matAt i).cost_per_unit - (matAt j).cost_per_unit) ^ 2 /
      colDenom (fun m : Material => m.cost_per_unit) :=
    div_pos (lt_of_le_of_ne (sq_nonneg _) (Ne.symm (pow_ne_zero 2 hne)))
      (colDenom_pos _)
  linarith

/-- The query row is strictly nearest to itself, so `kneighbors` reports it
first. -/
lemma neighborOrder_head (idx : ℕ) (hidx : idx < 15) :
    ∃ t, neighborOrder idx = idx :: t := by
  haveI : IsTotal ℕ (fun a b => sqDist idx a ≤ sqDist idx b) :=
    ⟨fun a b => le_total _ _⟩
  haveI : IsTrans ℕ (fun a b => sqDist idx a ≤ sqDist idx b) :=
    ⟨fun _ _ _ h1 h2 => le_trans h1 h2⟩
  have hsorted : List.Sorted (fun a b => sqDist idx a ≤ sqDist idx b)
      (neighborOrder idx) := List.sorted_insertionSort _ _
  have hperm : List.Perm (neighborOrder idx) (List.range 15) :=
    List.perm_insertionSort _ _
  cases hno : neighborOrder idx with
  | nil =>
    exfalso
    rw [hno] at hperm
    have := hperm.length_eq
    simp [List.length_range] at this
  | cons hd t =>
    refine ⟨t, ?_⟩
    have hhd : hd = idx := by
      by_contra hne
      have hmem : idx ∈ hd :: t := by
        rw [← hno]
        exact hperm.mem_iff.mpr (List.mem_range.mpr hidx)
      have hidxt : idx ∈ t := by
        cases List.mem_cons.mp hmem with
        | inl h => exact absurd h.symm hne
        | inr h => exact h
      have hrel := List.rel_of_sorted_cons (hno ▸ hsorted) idx hidxt
      rw [sqDist_self] at hrel
      have hd15 : hd < 15 := List.mem_range.mp
        (hperm.subset (hno ▸ List.mem_cons_self hd t))
      have hpos := sqDist_pos idx hd hidx hd15 fun h => hne h.symm
      linarith
    rw [hhd]

/-- Dropping one element of a one-element prefix leaves nothing. -/
lemma take_one_drop_one_eq_nil {α : Type} (l : List α) :
    (l.take 1).drop 1 = [] := by
  cases l <;> rfl

/-! ## C4: failure modes of the similarity lookup -/

/-- C4 counterexample: `k = 0` does not signal `InvalidArgument` — the query
runs with `n_neighbors = 1`, finds only the material itself, drops it, and
returns the empty list. -/
theorem C4_counterexample : get_similar_materials 1 0 = .ok [] := by
  unfold get_similar_materials
  rw [if_pos (by decide : (1 : ℤ) ∈ catalogIds), if_neg (by norm_num),
    if_neg (by norm_num)]
  have h1 : ((0 : ℤ) + 1).toNat = 1 := by norm_num
  rw [h1, take_one_drop_one_eq_nil, List.map_nil]

/-- C4 (amended): the lookup signals `NotFound` for every unknown
`material_id`; for a known id it signals `InvalidArgument` exactly when
`k < 0` (then `kneighbors` gets `n_neighbors ≤ 0`) or `k ≥ 15` (then
`n_neighbors` exceeds the 15 fitted samples); every known id with
`0 ≤ k ≤ 14` succeeds — in particular `k = 0` is not rejected. -/
theorem C4_failure_modes (mid k : ℤ) :
    (mid ∉ catalogIds → get_similar_materials mid k = .error .notFound) ∧
      (mid ∈ catalogIds → k < 0 →
        get_similar_materials mid k = .error .invalidArgument) ∧
      (mid ∈ catalogIds → 15 ≤ k →
        get_similar_materials mid k = .error .invalidArgument) ∧
      (mid ∈ catalogIds → 0 ≤ k → k < 15 →
        ∃ l, get_similar_materials mid k = .ok l) := by
  refine ⟨fun hm => ?_, fun hm hk => ?_, fun hm hk => ?_,
    fun hm hk0 hk15 => ?_⟩
  · unfold get_similar_materials
    rw [if_neg hm]
  · unfold get_similar_materials
    rw [if_pos hm, if_pos (by omega)]
  · unfold get_similar_materials
    rw [if_pos hm, if_neg (by omega), if_pos (by omega)]
  · unfold get_similar_materials
    rw [if_pos hm, if_neg (by omega), if_neg (by omega)]
    exact ⟨_, rfl⟩

/-- C4 witness: each failure mode and the success mode at concrete inputs. -/
theorem C4_failure_modes_witness :
    get_similar_materials 999 3 = .error .notFound ∧
      get_similar_materials 1 (-2) = .error .invalidArgument ∧
      get_similar_materials 1 20 = .error .invalidArgument ∧
      ∃ l, get_similar_materials 1 3 = .ok l :=
  ⟨(C4_failure_modes 999 3).1 (by decide),
   (C4_failure_modes 1 (-2)).2.1 (by decide) (by decide),
   (C4_failure_modes 1 20).2.2.1 (by decide) (by decide),
   (C4_failure_modes 1 3).2.2.2 (by decide) (by decide) (by decide)⟩

/-! ## C7: the similarity lookup returns k distinct ids, never the query -/

/-- C7: for every id in the catalog and every `0 < k <` catalog size, the
lookup succeeds with exactly `k` distinct material ids, none of them the
queried id. -/
theorem C7_k_distinct_excluding_self (mid k : ℤ) (hm : mid ∈ catalogIds)
    (hk0 : 0 < k) (hk15 : k < 15) :
    ∃ l, get_similar_materials mid k = .ok l ∧ l.length = k.toNat ∧
      l.Nodup ∧ mid ∉ l := by
  have hex : ∃ m ∈ materialDatabase, ((m.id == mid) : Bool) = true := by
    simp only [catalogIds, List.mem_map] at hm
    obtain ⟨m, hm1, hm2⟩ := hm
    exact ⟨m, hm1, by simp [hm2]⟩
  set idx := materialDatabase.findIdx (fun m => m.id == mid) with hidxdef
  have hidxlt : idx < 15 := by
    have := List.findIdx_lt_length_of_exists hex
    rw [materialDatabase_length] at this
    exact this
  have hw : idx < materialDatabase.length := by
    rw [materialDatabase_length]
    omega
  have hidxid : (matAt idx).id = mid := by
    have hp := @List.findIdx_getElem _ (fun m => m.id == mid)
      materialDatabase hw
    rw [beq_iff_eq] at hp
    rw [matAt, List.getD_eq_getElem materialDatabase defaultMaterial hw]
    exact hp
  obtain ⟨t, ht⟩ := neighborOrder_head idx hidxlt
  have hperm : List.Perm (neighborOrder idx) (List.range 15) :=
    List.perm_insertionSort _ _
  have hnodup : (idx :: t).Nodup := by
    rw [← ht]
    exact hperm.nodup_iff.mpr (List.nodup_range _)
  have hlen14 : t.length = 14 := by
    have hl := hperm.length_eq
    rw [ht] at hl
    simp [List.length_range] at hl
    omega
  have hmem15 : ∀ x ∈ t, x < 15 := by
    intro x hx
    have hxr : x ∈ List.range 15 := hperm.subset (by
      rw [ht]
      exact List.mem_cons_of_mem _ hx)
    exact List.mem_range.mp hxr
  have hidxnott : idx ∉ t := (List.nodup_cons.mp hnodup).1
  have htnodup : t.Nodup := (List.nodup_cons.mp hnodup).2
  unfold get_similar_materials
  rw [if_pos hm, if_neg (by omega), if_neg (by omega), ← hidxdef, ht]
  have htoNat : (k + 1).toNat = k.toNat + 1 := by omega
  rw [htoNat, List.take_succ_cons, List.drop_succ_cons, List.drop_zero]
  refine ⟨_, rfl, ?_, ?_, ?_⟩
  · rw [List.length_map, List.length_take_of_le]
    rw [hlen14]
    omega
  · apply List.Nodup.map_on
    · intro x hx y hy hxy
      exact map_col_inj (fun m => m.id) idNodup x y
        (hmem15 x (List.take_subset _ _ hx))
        (hmem15 y (List.take_subset _ _ hy)) hxy
    · exact htnodup.sublist (List.take_sublist _ _)
  · intro hmem
    simp only [List.mem_map] at hmem
    obtain ⟨x, hx, hxid⟩ := hmem
    have hx15 : x < 15 := hmem15 x (List.take_subset _ _ hx)
    have hxeq : x = idx := map_col_inj (fun m => m.id) idNodup x idx hx15
      hidxlt (hxid.trans hidxid.symm)
    exact hidxnott (hxeq ▸ List.take_subset _ _ hx)

/-- C7 witness: three neighbours of Tempered Glass (id 8). -/
theorem C7_k_distinct_excluding_self_witness :
    ((8 : ℤ) ∈ catalogIds ∧ (0 : ℤ) < 3 ∧ (3 : ℤ) < 15) ∧
      ∃ l, get_similar_materials 8 3 = .ok l ∧ l.length = (3 : ℤ).toNat ∧
        l.Nodup ∧ (8 : ℤ) ∉ l :=
  ⟨⟨by decide, by decide, by decide⟩,
   C7_k_distinct_excluding_self 8 3 (by decide) (by decide) (by decide)⟩

end Track3d
